import Mathlib

/-!
Verification of the MVB configuration library (mvbc_lib).

Shallow embedding of the configuration subsystem:
  * src/mvbc_lib/lib/json_parser.c  — field validators, port/device/project parsing
  * src/mvbc_lib/lib/lib_main.c     — hardware control-word packing
  * src/mvbc_lib/src/include/mvbc_lib.h — constants, structures, error codes

The JSON document tree (the external `parson` collaborator) is modelled by the
inductive `JVal`; the accessor functions mirror parson's documented NULL-safe
behaviour (`json_object_dotget_string` returns NULL unless the value exists and
is a string, `json_array_get_count(NULL) = 0`, etc.).  JSON numbers are modelled
as `Int`, matching the `(int)json_object_get_number(...)` casts at every use
site in the source.  C strings are modelled as `String` (the `strncpy`
length-capping with `MAX_STRING_LENGTH` is irrelevant to the properties here;
`MAX_STRING_LENGTH` is declared in a header outside the provided sources).
-/

namespace Mvbc

/-- A parsed JSON value (the generic key/value tree returned by the external
document parser).  `JNull` also stands for parson's NULL object pointer, on
which every accessor fails. -/
inductive JVal where
  | JNull : JVal
  | JString : String → JVal
  | JNumber : Int → JVal
  | JBool : Bool → JVal
  | JArray : List JVal → JVal
  | JObject : List (String × JVal) → JVal

/-- First-match lookup of a field name in an object's member list
(parson's `json_object_get_value`). -/
def lookupField : List (String × JVal) → String → Option JVal
  | [], _ => none
  | (k, v) :: rest, name => if k = name then some v else lookupField rest name

/-- Fetch a member from a value; fails unless the value is an object
(also models access through a NULL object pointer). -/
def objGet : JVal → String → Option JVal
  | JVal.JObject fields, name => lookupField fields name
  | _, _ => none

/-- parson's dotted-path lookup (`json_object_dotget_value`); the dotted C
string "a.b.c" is modelled as the segment list ["a","b","c"]. -/
def dotget : JVal → List String → Option JVal
  | v, [] => some v
  | v, n :: rest =>
    match objGet v n with
    | some w => dotget w rest
    | none => none

/-- `json_object_dotget_string`: the string value, or NULL when the path is
missing or the value is not a string. -/
def dotgetString (v : JVal) (path : List String) : Option String :=
  match dotget v path with
  | some (JVal.JString s) => some s
  | _ => none

/-- `json_object_dotget_number` / `json_object_get_number` followed by the
source's `(int)` cast: 0 when the path is missing or the value is not a
number.  Every call in the source is guarded by a
`json_object_dothas_value_of_type(..., JSONNumber)` check. -/
def dotgetNumber (v : JVal) (path : List String) : Int :=
  match dotget v path with
  | some (JVal.JNumber n) => n
  | _ => 0

/-- `json_object_dothas_value_of_type(obj, path, JSONNumber)`. -/
def dothasNumber (v : JVal) (path : List String) : Bool :=
  match dotget v path with
  | some (JVal.JNumber _) => true
  | _ => false

/-- `json_object_dotget_array`: the element list, or NULL when the path is
missing or the value is not an array. -/
def dotgetArray (v : JVal) (path : List String) : Option (List JVal) :=
  match dotget v path with
  | some (JVal.JArray xs) => some xs
  | _ => none

/-- `json_array_get_count`: parson returns 0 on a NULL array pointer. -/
def json_array_get_count : Option (List JVal) → Nat
  | none => 0
  | some xs => xs.length

/-- `json_array_get_object(arr, i)`: the i-th element when it is an object,
else NULL (modelled as `JNull`, on which every field access fails). -/
def json_array_get_object (xs : List JVal) (i : Nat) : JVal :=
  match xs[i]? with
  | some (JVal.JObject fields) => JVal.JObject fields
  | _ => JVal.JNull

/-! ### Constants from mvbc_lib.h and the enum definitions -/

/-- enum configErrors: NO_ERROR -/
def NO_ERROR : Int := 0
/-- enum configErrors: ERROR_CONFIG_INVALID_PARAMETER -/
def ERROR_CONFIG_INVALID_PARAMETER : Int := -200
/-- enum configErrors: ERROR_CONFIG_FILE_READ -/
def ERROR_CONFIG_FILE_READ : Int := -201
/-- enum configErrors: ERROR_CONFIG_FILE_PARAMETER -/
def ERROR_CONFIG_FILE_PARAMETER : Int := -202

/-- maximal allowed port number (mvbc_lib.h line 49) -/
def MAX_PORT_COUNT : Int := 4095

/-- enum eInterfaceType: eOGF (not supported) -/
def eOGF : Int := 0
/-- enum eInterfaceType: eESD -/
def eESD : Int := 1
/-- enum eInterfaceType: eEMD -/
def eEMD : Int := 2

/-- enum eMode: eStatic -/
def eStatic : Int := 0
/-- enum eMode: eDynamic -/
def eDynamic : Int := 1
/-- enum eMode: eCombined -/
def eCombined : Int := 2

/-- enum ePortDirection: eSink -/
def eSink : Int := 0
/-- enum ePortDirection: eSource -/
def eSource : Int := 1

/-- enum ePortType: eLA -/
def eLA : Int := 0
/-- enum ePortType: eDA -/
def eDA : Int := 1
/-- enum ePortType: ePP -/
def ePP : Int := 2

/-- default mvbc_device description -/
def MVBC_JSON_CONF_DEFAULT_DEVICE_DESCRIPTION : String := "n/a"
/-- default mvbc_device memory_test off -/
def MVBC_JSON_CONF_DEFAULT_DEVICE_MEMORY_TEST : Int := 0
/-- default mvbc_port name -/
def MVBC_JSON_CONF_DEFAULT_PORT_NAME : String := "n/a"
/-- default mvbc_port type -/
def MVBC_JSON_CONF_DEFAULT_PORT_TYPE : Int := eLA
/-- default mvbc_port direction -/
def MVBC_JSON_CONF_DEFAULT_PORT_DIRECTION : Int := eSink
/-- default mvbc_port polling interval -/
def MVBC_JSON_CONF_DEFAULT_PORT_POLL_MS : Int := 16
/-- default mvbc_port interrupt number -/
def MVBC_JSON_CONF_DEFAULT_PORT_IRQ : Int := 0
/-- default mvbc_port numerical data config -/
def MVBC_JSON_CONF_DEFAULT_PORT_NUM_DATA : Int := 0
/-- default project name -/
def MVBC_JSON_CONF_DEFAULT_PROJECT_NAME : String := "n/a"
/-- default project version -/
def MVBC_JSON_CONF_DEFAULT_PROJECT_VERSION : String := "n/a"

/-! ### Field validators (json_parser.c lines 45–281) -/

/-- validateInterface (json_parser.c line 45): "EMD" or "ESD+", else -1. -/
def validateInterface (mode : String) : Int :=
  if mode = "EMD" then eEMD
  else if mode = "ESD+" then eESD
  else -1

/-- validateMode (json_parser.c line 70): "static"/"dynamic"/"combined", else -1. -/
def validateMode (mode : String) : Int :=
  if mode = "static" then eStatic
  else if mode = "dynamic" then eDynamic
  else if mode = "combined" then eCombined
  else -1

/-- validatePortType (json_parser.c line 98): "la"/"da"/"pp", else -1. -/
def validatePortType (ty : String) : Int :=
  if ty = "la" then eLA
  else if ty = "da" then eDA
  else if ty = "pp" then ePP
  else -1

/-- validatePortDirection (json_parser.c line 125): "source"/"sink", else -1. -/
def validatePortDirection (direction : String) : Int :=
  if direction = "source" then eSource
  else if direction = "sink" then eSink
  else -1

/-- validateDeviceAddr (json_parser.c line 147): 0 < addr <= 4095, else -1. -/
def validateDeviceAddr (addr : Int) : Int :=
  if addr ≤ 4095 ∧ addr > 0 then addr else -1

/-- validatePortAddr (json_parser.c line 165): 0 < addr <= 4095, else -1. -/
def validatePortAddr (addr : Int) : Int :=
  if addr ≤ 4095 ∧ addr > 0 then addr else -1

/-- validateFunctionalCode (json_parser.c line 183): 0 <= fcode <= 15, else -1. -/
def validateFunctionalCode (fcode : Int) : Int :=
  if fcode ≤ 15 ∧ fcode ≥ 0 then fcode else -1

/-- validatePollingTimeout (json_parser.c line 211): the switch accepts
1/2/4/8 (with a "resource-heavy" debug advisory) and 16/32/64/128/256/512/1024
unchanged; any other value falls through to the default case, which returns
MVBC_JSON_CONF_DEFAULT_PORT_POLL_MS (16) with a warning.  The advisory and the
warning are fprintf side effects (DEBUG_OUT) with no influence on the value. -/
def validatePollingTimeout (poll_ms : Int) : Int :=
  if poll_ms = 1 ∨ poll_ms = 2 ∨ poll_ms = 4 ∨ poll_ms = 8 then
    poll_ms
  else if poll_ms = 16 ∨ poll_ms = 32 ∨ poll_ms = 64 ∨ poll_ms = 128 ∨
          poll_ms = 256 ∨ poll_ms = 512 ∨ poll_ms = 1024 then
    poll_ms
  else
    MVBC_JSON_CONF_DEFAULT_PORT_POLL_MS

/-- validateInterruptNumber (json_parser.c line 250): 0 <= irq <= 7, else -1. -/
def validateInterruptNumber (irq : Int) : Int :=
  if irq ≤ 7 ∧ irq ≥ 0 then irq else -1

/-- validateNumericalData (json_parser.c line 271): 0 or 1, else -1. -/
def validateNumericalData (num_data : Int) : Int :=
  if num_data = 0 ∨ num_data = 1 then num_data else -1

/-! ### Configuration structures (mvbc_lib.h) -/

/-- struct sMvbcPortCfg (mvbc_lib.h line 73). -/
structure sMvbcPortCfg where
  iPortAddr : Int
  iPortType : Int
  iPortDirection : Int
  iFunctionCode : Int
  iPollIntervalMS : Int
  iIrqNumber : Int
  iNumData : Int

/-- struct sMvbcPort (mvbc_lib.h line 172): port name plus configuration. -/
structure sMvbcPort where
  cPortName : String
  portCfg : sMvbcPortCfg

/-- struct sMvbcDefaultPortCfg: the default-port template written by
parse_port_config's dynamic section.  The struct is declared in
mvbc_ioctl_interface.h, which is not among the provided sources; its four
fields are taken from their uses in json_parser.c lines 531–616. -/
structure sMvbcDefaultPortCfg where
  wPortType : Int
  wPollInterval : Int
  iIrqNumber : Int
  iNumData : Int

/-- struct sMvbcPorts (mvbc_lib.h line 185).  The C fixed array
`port[MAX_PORT_COUNT]` is modelled as a total function from slot index to
slot contents (every slot zero-initialised by the project-level memset); the
source indexes it only sequentially from 0. -/
structure sMvbcPorts where
  mvbc_port_count : Int
  defaultPortCfg : sMvbcDefaultPortCfg
  port : Nat → sMvbcPort

/-- struct sMvbcDevCfg (mvbc_lib.h line 200). -/
structure sMvbcDevCfg where
  cDescription : String
  cDevPath : String
  iInterface : Int
  iMode : Int
  iTestTrafficMemory : Int
  iDeviceAddr : Int
  portSetup : sMvbcPorts

/-- struct sProject (mvbc_lib.h line 230).  The fixed array
`mvbc[MAX_MVBC_DEVICES]` is modelled as a total function from slot index to
device slot. -/
structure sProject where
  cProjectName : String
  cProjectVersion : String
  mvbc_device_count : Int
  mvbc : Nat → sMvbcDevCfg

/-- The all-zero port configuration (`memset(pProject, 0, ...)`). -/
def zeroPortCfg : sMvbcPortCfg := ⟨0, 0, 0, 0, 0, 0, 0⟩

/-- The all-zero port slot. -/
def zeroPort : sMvbcPort := ⟨"", zeroPortCfg⟩

/-- The all-zero default-port template. -/
def zeroDefaultPortCfg : sMvbcDefaultPortCfg := ⟨0, 0, 0, 0⟩

/-- The all-zero port set. -/
def zeroPorts : sMvbcPorts := ⟨0, zeroDefaultPortCfg, fun _ => zeroPort⟩

/-- The all-zero device slot. -/
def zeroDevCfg : sMvbcDevCfg := ⟨"", "", 0, 0, 0, 0, zeroPorts⟩

/-- The all-zero project (`memset(pProject, 0, sizeof(struct sProject))`,
json_parser.c line 650). -/
def zeroProject : sProject := ⟨"", "", 0, fun _ => zeroDevCfg⟩

/-! ### Port parsing (json_parser.c parse_port_config, lines 292–621) -/

/-- The repeated mandatory-number pattern of parse_port_config /
mvbc_parse_project_configuration: `if (json_object_dothas_value_of_type(obj,
key, JSONNumber)) { v = validate((int)get_number(obj,key)); if (v != -1) ok
else error } else error`. -/
def resolveMandatoryNumber (obj : JVal) (key : List String)
    (validate : Int → Int) : Except Int Int :=
  if dothasNumber obj key then
    let v := validate (dotgetNumber obj key)
    if v ≠ -1 then Except.ok v else Except.error ERROR_CONFIG_FILE_PARAMETER
  else Except.error ERROR_CONFIG_FILE_PARAMETER

/-- The repeated optional-number pattern: present-and-number runs the
validator (failure is a hard error), otherwise the default is substituted. -/
def resolveOptionalNumber (obj : JVal) (key : List String)
    (validate : Int → Int) (deflt : Int) : Except Int Int :=
  if dothasNumber obj key then
    let v := validate (dotgetNumber obj key)
    if v ≠ -1 then Except.ok v else Except.error ERROR_CONFIG_FILE_PARAMETER
  else Except.ok deflt

/-- The repeated mandatory-string-enumeration pattern (device interface and
mode): the `dothas_value_of_type(..., JSONString)` guard and the subsequent
`dotget_string` fetch are modelled by one `dotgetString` match; absence or a
non-string value is a hard error, as is validator failure. -/
def resolveMandatoryStringEnum (obj : JVal) (key : List String)
    (validate : String → Int) : Except Int Int :=
  match dotgetString obj key with
  | some s =>
    let v := validate s
    if v ≠ -1 then Except.ok v else Except.error ERROR_CONFIG_FILE_PARAMETER
  | none => Except.error ERROR_CONFIG_FILE_PARAMETER

/-- The repeated optional-string-enumeration pattern: the source checks
`dothas_value_of_type(..., JSONString)` and then fetches with
`dotget_string`, which returns the string exactly when that check passes, so
the two calls are modelled by one `dotgetString` match. -/
def resolveOptionalStringEnum (obj : JVal) (key : List String)
    (validate : String → Int) (deflt : Int) : Except Int Int :=
  match dotgetString obj key with
  | some s =>
    let v := validate s
    if v ≠ -1 then Except.ok v else Except.error ERROR_CONFIG_FILE_PARAMETER
  | none => Except.ok deflt

/-- One iteration of the static-port loop (json_parser.c lines 309–515):
fields are written into the (zero-initialised) slot `s0` in source order —
name, addr, type, direction, fcode, poll_ms, irq, num_data — and the first
mandatory/validation failure stops the iteration (`break`), leaving the
fields written so far in place.  Returns the loop's rc plus the slot. -/
def parse_static_port (s0 : sMvbcPort) (port : JVal) : Int × sMvbcPort :=
  let s1 :=
    match dotgetString port ["name"] with
    | some s => { s0 with cPortName := s }
    | none => { s0 with cPortName := MVBC_JSON_CONF_DEFAULT_PORT_NAME }
  match resolveMandatoryNumber port ["addr"] validatePortAddr with
  | Except.error e => (e, s1)
  | Except.ok addr =>
  let s2 := { s1 with portCfg := { s1.portCfg with iPortAddr := addr } }
  match resolveOptionalStringEnum port ["type"] validatePortType
      MVBC_JSON_CONF_DEFAULT_PORT_TYPE with
  | Except.error e => (e, s2)
  | Except.ok ty =>
  let s3 := { s2 with portCfg := { s2.portCfg with iPortType := ty } }
  match resolveOptionalStringEnum port ["direction"] validatePortDirection
      MVBC_JSON_CONF_DEFAULT_PORT_DIRECTION with
  | Except.error e => (e, s3)
  | Except.ok dir =>
  let s4 := { s3 with portCfg := { s3.portCfg with iPortDirection := dir } }
  match resolveMandatoryNumber port ["fcode"] validateFunctionalCode with
  | Except.error e => (e, s4)
  | Except.ok fcode =>
  let s5 := { s4 with portCfg := { s4.portCfg with iFunctionCode := fcode } }
  match resolveOptionalNumber port ["poll_ms"] validatePollingTimeout
      MVBC_JSON_CONF_DEFAULT_PORT_POLL_MS with
  | Except.error e => (e, s5)
  | Except.ok poll =>
  let s6 := { s5 with portCfg := { s5.portCfg with iPollIntervalMS := poll } }
  match resolveOptionalNumber port ["irq"] validateInterruptNumber
      MVBC_JSON_CONF_DEFAULT_PORT_IRQ with
  | Except.error e => (e, s6)
  | Except.ok irq =>
  let s7 := { s6 with portCfg := { s6.portCfg with iIrqNumber := irq } }
  match resolveOptionalNumber port ["num_data"] validateNumericalData
      MVBC_JSON_CONF_DEFAULT_PORT_NUM_DATA with
  | Except.error e => (e, s7)
  | Except.ok nd =>
  (NO_ERROR, { s7 with portCfg := { s7.portCfg with iNumData := nd } })

/-- Helper for the element loops: coerce an array element to an object, NULL
when it is not one (parson's `json_array_get_object` per element). -/
def json_array_get_object_of : JVal → JVal
  | JVal.JObject fields => JVal.JObject fields
  | _ => JVal.JNull

/-- The static-port loop of parse_port_config: iterates the `config.static`
array in document order, writing `port[i]` index-for-index, and breaks out on
the first per-port failure (leaving later slots untouched). -/
def static_loop : List JVal → Nat → sMvbcPorts → Int × sMvbcPorts
  | [], _, ps => (NO_ERROR, ps)
  | v :: rest, i, ps =>
    let (rc, slot) := parse_static_port (ps.port i) (json_array_get_object_of v)
    let ps1 := { ps with port := fun j => if j = i then slot else ps.port j }
    if rc ≠ NO_ERROR then (rc, ps1) else static_loop rest (i + 1) ps1

/-- The default-port ("dynamic") section of parse_port_config (json_parser.c
lines 518–618): each of the four `config.default.*` fields is resolved
independently; a validation failure records `rc = ERROR_CONFIG_FILE_PARAMETER`
and leaves the field unwritten but does NOT stop the remaining fields (no
`break` in this section); an absent or wrongly-typed field is replaced by its
default without error.  `rc0` is the rc carried over from the static section
— the section only ever overwrites it with the same error constant, so a
static-section failure is never cleared here. -/
def parse_dynamic_section (structObject : JVal) (rc0 : Int) (ps : sMvbcPorts) :
    Int × sMvbcPorts :=
  let (rc1, ps1) :=
    match resolveOptionalStringEnum structObject ["config", "default", "type"]
        validatePortType MVBC_JSON_CONF_DEFAULT_PORT_TYPE with
    | Except.ok v =>
      (rc0, { ps with defaultPortCfg := { ps.defaultPortCfg with wPortType := v } })
    | Except.error e => (e, ps)
  let (rc2, ps2) :=
    match resolveOptionalNumber structObject ["config", "default", "poll_ms"]
        validatePollingTimeout MVBC_JSON_CONF_DEFAULT_PORT_POLL_MS with
    | Except.ok v =>
      (rc1, { ps1 with defaultPortCfg := { ps1.defaultPortCfg with wPollInterval := v } })
    | Except.error e => (e, ps1)
  let (rc3, ps3) :=
    match resolveOptionalNumber structObject ["config", "default", "irq"]
        validateInterruptNumber MVBC_JSON_CONF_DEFAULT_PORT_IRQ with
    | Except.ok v =>
      (rc2, { ps2 with defaultPortCfg := { ps2.defaultPortCfg with iIrqNumber := v } })
    | Except.error e => (e, ps2)
  match resolveOptionalNumber structObject ["config", "default", "num_data"]
      validateNumericalData MVBC_JSON_CONF_DEFAULT_PORT_NUM_DATA with
  | Except.ok v =>
    (rc3, { ps3 with defaultPortCfg := { ps3.defaultPortCfg with iNumData := v } })
  | Except.error e => (e, ps3)

/-- parse_port_config (json_parser.c lines 292–621).  For mode static or
combined: fetch the `config.static` array, store its element count into
`mvbc_port_count` unconditionally (parson returns count 0 for a missing
list, and no bound against MAX_PORT_COUNT is checked), then run the static
loop.  For mode dynamic or combined: additionally resolve the default-port
template; this section runs even when the static loop failed. -/
def parse_port_config (structObject : JVal) (portSetup : sMvbcPorts)
    (mode : Int) : Int × sMvbcPorts :=
  let (rcS, psS) :=
    if mode = eStatic ∨ mode = eCombined then
      let staticList := dotgetArray structObject ["config", "static"]
      let count := json_array_get_count staticList
      let ps := { portSetup with mvbc_port_count := (count : Int) }
      static_loop (staticList.getD []) 0 ps
    else (NO_ERROR, portSetup)
  if mode = eDynamic ∨ mode = eCombined then
    parse_dynamic_section structObject rcS psS
  else (rcS, psS)

/-! ### Device and project parsing (json_parser.c lines 637–855) -/

/-- One iteration of the device loop of mvbc_parse_project_configuration
(json_parser.c lines 713–841), acting on the (zero-initialised) device slot
`dev0`.  The third component records whether the iteration left the device
loop with `break` (every mandatory-field failure does; the final
`rc = parse_port_config(...)` assignment at line 840 does not, whatever rc it
produces). -/
def parse_device (dev0 : sMvbcDevCfg) (structObject : JVal) :
    Int × sMvbcDevCfg × Bool :=
  match dotgetString structObject ["path"] with
  | none => (ERROR_CONFIG_FILE_PARAMETER, dev0, true)
  | some path =>
  let d1 := { dev0 with cDevPath := path }
  let d2 :=
    match dotgetString structObject ["description"] with
    | some s => { d1 with cDescription := s }
    | none => { d1 with cDescription := MVBC_JSON_CONF_DEFAULT_DEVICE_DESCRIPTION }
  match resolveMandatoryStringEnum structObject ["interface"] validateInterface with
  | Except.error e => (e, d2, true)
  | Except.ok iface =>
  let d3 := { d2 with iInterface := iface }
  match resolveMandatoryNumber structObject ["device_addr"] validateDeviceAddr with
  | Except.error e => (e, d3, true)
  | Except.ok addr =>
  let d4 := { d3 with iDeviceAddr := addr }
  match resolveMandatoryStringEnum structObject ["mode"] validateMode with
  | Except.error e => (e, d4, true)
  | Except.ok mode =>
  let d5 := { d4 with iMode := mode }
  let d6 :=
    if dothasNumber structObject ["traffic_memory"] then
      { d5 with iTestTrafficMemory := dotgetNumber structObject ["traffic_memory"] }
    else
      { d5 with iTestTrafficMemory := MVBC_JSON_CONF_DEFAULT_DEVICE_MEMORY_TEST }
  let (rcp, ps) := parse_port_config structObject d6.portSetup d6.iMode
  (rcp, { d6 with portSetup := ps }, false)

/-- The device loop of mvbc_parse_project_configuration: processes devices in
document order; an iteration that hit `break` ends the loop with its rc; an
iteration that ran to completion replaces rc by its parse_port_config result
(json_parser.c line 840 is a plain assignment) and the loop continues. -/
def device_loop : List JVal → Nat → Int → sProject → Int × sProject
  | [], _, rc, proj => (rc, proj)
  | v :: rest, i, _, proj =>
    let (rcd, dev, broke) := parse_device (proj.mvbc i) (json_array_get_object_of v)
    let proj1 := { proj with mvbc := fun j => if j = i then dev else proj.mvbc j }
    if broke then (rcd, proj1) else device_loop rest (i + 1) rcd proj1

/-- mvbc_parse_project_configuration (json_parser.c lines 637–855), taken
from the parsed document root (the file read and the `json_parse_file` call
are the external parser collaborator; a read/parse failure surfaces as a
non-object root).  Modelled from the spec: MAX_MVBC_DEVICES is defined in
mvbc_ioctl_interface.h, which is not among the provided sources — the spec
gives no numeric value ("bounded by a maximum device count"), so the constant
is kept as the explicit parameter `MAX_MVBC_DEVICES` here.  The
`pProject == 0` guard concerns the C output pointer and has no counterpart;
the `memset` is the `zeroProject` start state. -/
def mvbc_parse_project_configuration (MAX_MVBC_DEVICES : Nat)
    (rootValue : JVal) : Int × sProject :=
  match rootValue with
  | JVal.JObject fields =>
    let rootObject := JVal.JObject fields
    let p1 :=
      match dotgetString rootObject ["project", "name"] with
      | some s => { zeroProject with cProjectName := s }
      | none => { zeroProject with cProjectName := MVBC_JSON_CONF_DEFAULT_PROJECT_NAME }
    let p2 :=
      match dotgetString rootObject ["project", "version"] with
      | some s => { p1 with cProjectVersion := s }
      | none => { p1 with cProjectVersion := MVBC_JSON_CONF_DEFAULT_PROJECT_VERSION }
    match dotgetArray rootObject ["project", "devices"] with
    | some devices =>
      let count := devices.length
      if count > MAX_MVBC_DEVICES then
        (ERROR_CONFIG_INVALID_PARAMETER, p2)
      else
        let p3 := { p2 with mvbc_device_count := (count : Int) }
        device_loop devices 0 NO_ERROR p3
    | none => (ERROR_CONFIG_FILE_PARAMETER, p2)
  | _ => (ERROR_CONFIG_FILE_READ, zeroProject)

/-! ### Register packing (lib_main.c mvbc_set_port_configuration, lines 204–258) -/

/-- struct sMvbcPortConfig: the per-port record handed to the driver ioctl.
The struct is declared in mvbc_ioctl_interface.h, which is not among the
provided sources; its fields are taken from their uses in lib_main.c lines
214–247.  `wPCS_W0` is the 16-bit PCS control word, modelled as `Nat` (for
validated field values every OR'd summand is below 2^16, so the C word
arithmetic never wraps). -/
structure sMvbcPortConfig where
  bStaticConf : Int
  wPortAddr : Int
  wFuncCode : Int
  wPortType : Int
  wPCS_W0 : Nat
  wPollInterval : Int

/-- The loop body of mvbc_set_port_configuration (lib_main.c lines 214–247)
for one configured port: memset the record to zero, copy address / function
code / type, then OR the control word together — function code shifted to bit
12, the single direction bit at 10 + direction, the numeric-data flag at bit
1 — and finally either transmit the poll interval (irq == 0) or OR the
interrupt number in at bit 5 (irq != 0).  The ioctl send is the external
driver collaborator.  C `int` field values are validated non-negative at
every call site, so their shifts are modelled through `Int.toNat`. -/
def set_port_configuration_body (p : sMvbcPortCfg) : sMvbcPortConfig :=
  let direction := p.iPortDirection
  let num_data := p.iNumData
  let irq_num := p.iIrqNumber
  let c0 : sMvbcPortConfig :=
    { bStaticConf := 1
      wPortAddr := p.iPortAddr
      wFuncCode := p.iFunctionCode
      wPortType := p.iPortType
      wPCS_W0 := 0
      wPollInterval := 0 }
  let w1 := c0.wPCS_W0 ||| (c0.wFuncCode.toNat <<< 12)
  let w2 := w1 ||| (1 <<< (10 + direction.toNat))
  let w3 := w2 ||| (num_data.toNat <<< 1)
  if irq_num = 0 then
    { c0 with wPCS_W0 := w3, wPollInterval := p.iPollIntervalMS }
  else
    { c0 with wPCS_W0 := w3 ||| (irq_num.toNat <<< 5) }

/-! ### Concrete documents used as inputs in the theorems below -/

/-- A static-port record with both mandatory fields present and legal
(addr 12, fcode 3) and every optional field absent. -/
def goodStaticPort : JVal :=
  JVal.JObject [("addr", JVal.JNumber 12), ("fcode", JVal.JNumber 3)]

/-- A static-port record missing the mandatory "addr" field. -/
def portMissingAddr : JVal :=
  JVal.JObject [("fcode", JVal.JNumber 3)]

/-- A device record with all mandatory device fields present and legal,
operational mode "static", and the given static port list. -/
def staticDevice (ports : List JVal) : JVal :=
  JVal.JObject [("path", JVal.JString "/dev/mvbc0"),
    ("interface", JVal.JString "EMD"),
    ("device_addr", JVal.JNumber 1),
    ("mode", JVal.JString "static"),
    ("config", JVal.JObject [("static", JVal.JArray ports)])]

/-- A root document whose project.devices array is the given list (project
name and version left absent, so their defaults apply). -/
def mkRootDevices (devs : List JVal) : JVal :=
  JVal.JObject [("project", JVal.JObject [("devices", JVal.JArray devs)])]

/-- Two devices: the first with a static port missing its mandatory address,
the second fully valid. -/
def docMasking : JVal :=
  mkRootDevices [staticDevice [portMissingAddr], staticDevice [goodStaticPort]]

/-- One device whose only static port misses its mandatory address. -/
def docSingleBadPort : JVal :=
  mkRootDevices [staticDevice [portMissingAddr]]

/-- A project whose devices array is present but empty. -/
def docEmptyDevices : JVal :=
  mkRootDevices []

/-- A project document without the project.devices key. -/
def docNoDevices : JVal :=
  JVal.JObject [("project", JVal.JObject [("name", JVal.JString "p")])]

/-- Two devices: the first an empty object (mandatory "path" missing, so the
device loop breaks at index 0), the second fully valid. -/
def docFirstDeviceBreaks : JVal :=
  mkRootDevices [JVal.JObject [], staticDevice [goodStaticPort]]

/-- A device record with a valid static port list and a config.default.type
value of the wrong primitive type (a number instead of a string). -/
def combinedDeviceDefaultTypeNumber : JVal :=
  JVal.JObject [("config", JVal.JObject
    [("static", JVal.JArray [goodStaticPort]),
     ("default", JVal.JObject [("type", JVal.JNumber 5)])])]

/-- A device record with a valid static port list and a config.default.type
string that fails the port-type validator. -/
def combinedDeviceDefaultTypeBogus : JVal :=
  JVal.JObject [("config", JVal.JObject
    [("static", JVal.JArray [goodStaticPort]),
     ("default", JVal.JObject [("type", JVal.JString "xx")])])]

/-- An empty object: no config.static list and no config.default section. -/
def emptyObject : JVal :=
  JVal.JObject []

/-- A device configuration section whose static port list has 4096 entries,
one more than MAX_PORT_COUNT, every entry valid. -/
def devStatic4096 : JVal :=
  JVal.JObject [("config", JVal.JObject
    [("static", JVal.JArray (List.replicate 4096 goodStaticPort))])]

/-! ### Theorems -/

set_option synthInstance.maxSize 2000 in
theorem pcs_w0_aux : ∀ f < 16, ∀ d < 2, ∀ n < 2, ∀ q < 8,
    (((if q = 0 then ((0 ||| (f <<< 12)) ||| (1 <<< (10 + d))) ||| (n <<< 1)
        else (((0 ||| (f <<< 12)) ||| (1 <<< (10 + d))) ||| (n <<< 1)) ||| (q <<< 5))
       / 2 ^ 12) % 2 ^ 4 = f ∧
    ((if q = 0 then ((0 ||| (f <<< 12)) ||| (1 <<< (10 + d))) ||| (n <<< 1)
        else (((0 ||| (f <<< 12)) ||| (1 <<< (10 + d))) ||| (n <<< 1)) ||| (q <<< 5))
       / 2 ^ 10) % 2 = (if d = 0 then 1 else 0) ∧
    ((if q = 0 then ((0 ||| (f <<< 12)) ||| (1 <<< (10 + d))) ||| (n <<< 1)
        else (((0 ||| (f <<< 12)) ||| (1 <<< (10 + d))) ||| (n <<< 1)) ||| (q <<< 5))
       / 2 ^ 11) % 2 = (if d = 1 then 1 else 0) ∧
    ((if q = 0 then ((0 ||| (f <<< 12)) ||| (1 <<< (10 + d))) ||| (n <<< 1)
        else (((0 ||| (f <<< 12)) ||| (1 <<< (10 + d))) ||| (n <<< 1)) ||| (q <<< 5))
       / 2) % 2 = n ∧
    ((if q = 0 then ((0 ||| (f <<< 12)) ||| (1 <<< (10 + d))) ||| (n <<< 1)
        else (((0 ||| (f <<< 12)) ||| (1 <<< (10 + d))) ||| (n <<< 1)) ||| (q <<< 5))
       / 2 ^ 5) % 2 ^ 3 = q) := by decide

/-- C1: for every validated port configuration (function code in 0..15,
direction in {0,1}, numeric-data flag in {0,1}, interrupt number in 0..7),
the packed control word carries the function code in bits 12–15, sets exactly
one of bit 10 (direction 0, sink) or bit 11 (direction 1, source), carries
the numeric-data flag in bit 1, and — when the interrupt number is nonzero —
carries the interrupt number in bits 5–7 with the poll interval not
transmitted (wPollInterval left at its memset 0); when the interrupt number
is zero, bits 5–7 stay clear and the poll interval is transmitted instead. -/
theorem pcs_w0_layout (p : sMvbcPortCfg)
    (hf : 0 ≤ p.iFunctionCode ∧ p.iFunctionCode ≤ 15)
    (hd : p.iPortDirection = 0 ∨ p.iPortDirection = 1)
    (hn : p.iNumData = 0 ∨ p.iNumData = 1)
    (hq : 0 ≤ p.iIrqNumber ∧ p.iIrqNumber ≤ 7) :
    ((set_port_configuration_body p).wPCS_W0 / 2 ^ 12) % 2 ^ 4 =
      p.iFunctionCode.toNat ∧
    ((set_port_configuration_body p).wPCS_W0 / 2 ^ 10) % 2 =
      (if p.iPortDirection = 0 then 1 else 0) ∧
    ((set_port_configuration_body p).wPCS_W0 / 2 ^ 11) % 2 =
      (if p.iPortDirection = 1 then 1 else 0) ∧
    ((set_port_configuration_body p).wPCS_W0 / 2) % 2 = p.iNumData.toNat ∧
    (p.iIrqNumber ≠ 0 →
      ((set_port_configuration_body p).wPCS_W0 / 2 ^ 5) % 2 ^ 3 =
        p.iIrqNumber.toNat ∧
      (set_port_configuration_body p).wPollInterval = 0) ∧
    (p.iIrqNumber = 0 →
      ((set_port_configuration_body p).wPCS_W0 / 2 ^ 5) % 2 ^ 3 = 0 ∧
      (set_port_configuration_body p).wPollInterval = p.iPollIntervalMS) := by
  obtain ⟨hf0, hf1⟩ := hf
  obtain ⟨hq0, hq1⟩ := hq
  rcases p with ⟨addr, ty, dir, fc, poll, irq, nd⟩
  simp only at hf0 hf1 hd hn hq0 hq1 ⊢
  have hzIff : irq = 0 ↔ irq.toNat = 0 := by omega
  have hw : (set_port_configuration_body ⟨addr, ty, dir, fc, poll, irq, nd⟩).wPCS_W0 =
      (if irq.toNat = 0 then
        ((0 ||| (fc.toNat <<< 12)) ||| (1 <<< (10 + dir.toNat))) ||| (nd.toNat <<< 1)
      else
        (((0 ||| (fc.toNat <<< 12)) ||| (1 <<< (10 + dir.toNat))) ||| (nd.toNat <<< 1))
          ||| (irq.toNat <<< 5)) := by
    by_cases hz : irq = 0
    · subst hz
      rfl
    · have hzN : irq.toNat ≠ 0 := fun h => hz (hzIff.mpr h)
      simp only [set_port_configuration_body, if_neg hz, if_neg hzN]
  have hpoll : (set_port_configuration_body
        ⟨addr, ty, dir, fc, poll, irq, nd⟩).wPollInterval =
      (if irq = 0 then poll else 0) := by
    by_cases hz : irq = 0
    · subst hz
      rfl
    · simp only [set_port_configuration_body, if_neg hz]
  obtain ⟨a1, a2, a3, a4, a5⟩ := pcs_w0_aux fc.toNat (by omega) dir.toNat (by omega)
    nd.toNat (by omega) irq.toNat (by omega)
  rw [hw, hpoll]
  refine ⟨a1, ?_, ?_, a4, fun h3 => ⟨?_, if_neg h3⟩, fun h3 => ⟨?_, if_pos h3⟩⟩
  · rcases hd with h | h <;> subst h <;> simpa using a2
  · rcases hd with h | h <;> subst h <;> simpa using a3
  · exact a5
  · rw [a5, hzIff.mp h3]

/-- Witness for pcs_w0_layout at the spec's scenario: a port with function
code 5, direction source, numeric data 1, interrupt number 3 and poll
interval 64 packs the interrupt bits 011 into bits 5–7 and does not transmit
the poll interval. -/
theorem pcs_w0_layout_witness :
    ((set_port_configuration_body ⟨1, 0, 1, 5, 64, 3, 1⟩).wPCS_W0 / 2 ^ 5) % 2 ^ 3
      = 3 ∧
    (set_port_configuration_body ⟨1, 0, 1, 5, 64, 3, 1⟩).wPollInterval = 0 :=
  (pcs_w0_layout ⟨1, 0, 1, 5, 64, 3, 1⟩ (by decide) (by decide) (by decide)
    (by decide)).2.2.2.2.1 (by decide)

/-- C2: for every integer p the poll-interval validator never fails: it
returns p unchanged if p is one of {16,32,64,128,256,512,1024}, returns p
unchanged for p in {1,2,4,8} (there the source additionally emits the
resource-heavy advisory, a DEBUG_OUT print with no effect on the value), and
returns the default 16 for every other integer, 0 and negative values
included; in particular the -1 failure sentinel is never returned. -/
theorem validatePollingTimeout_never_fails (p : Int) :
    validatePollingTimeout p =
      (if p = 1 ∨ p = 2 ∨ p = 4 ∨ p = 8 ∨ p = 16 ∨ p = 32 ∨ p = 64 ∨
          p = 128 ∨ p = 256 ∨ p = 512 ∨ p = 1024 then p else 16) ∧
    validatePollingTimeout p ≠ -1 := by
  unfold validatePollingTimeout MVBC_JSON_CONF_DEFAULT_PORT_POLL_MS
  constructor <;> split_ifs <;> omega

/-- C7: the port-address validator accepts an integer a (returns something
other than the -1 failure sentinel) exactly when 1 ≤ a ≤ 4095, and the
device-address validator is the identical function; the boundary cases
(0 fails, 4095 succeeds, 4096 fails, for both validators) are instances. -/
theorem addr_validators_domain (a : Int) :
    (validatePortAddr a ≠ -1 ↔ 1 ≤ a ∧ a ≤ 4095) ∧
    validateDeviceAddr a = validatePortAddr a := by
  unfold validatePortAddr validateDeviceAddr
  constructor
  · split_ifs <;> omega
  · rfl

/-- C3 (refuted by the code): json_parser.c line 840 assigns the
parse_port_config result to rc without breaking out of the device loop, so a
mandatory-port-field failure in an earlier device is overwritten by a later
device's success.  At `docMasking` — device 0 has a static port without its
mandatory address, device 1 is fully valid — the aggregate result is
NO_ERROR, although the same failing device alone yields
ERROR_CONFIG_FILE_PARAMETER. -/
theorem port_failure_masked_by_later_device :
    (mvbc_parse_project_configuration 8 docMasking).1 = NO_ERROR ∧
    (mvbc_parse_project_configuration 8 docSingleBadPort).1 =
      ERROR_CONFIG_FILE_PARAMETER := by
  exact ⟨rfl, rfl⟩

/-- C5 counterexample: in mode combined with a valid static port list, a
config.default.type of the wrong primitive type (a number) does NOT make the
device-level result signal failure — the dothas_value_of_type(...,
JSONString) guard fails, the default port type is substituted, and the
result is NO_ERROR. -/
theorem default_type_wrong_primitive_not_an_error :
    (parse_port_config combinedDeviceDefaultTypeNumber zeroPorts eCombined).1 =
      NO_ERROR ∧
    ((parse_port_config combinedDeviceDefaultTypeNumber zeroPorts
        eCombined).2).defaultPortCfg.wPortType =
      MVBC_JSON_CONF_DEFAULT_PORT_TYPE := by
  exact ⟨rfl, rfl⟩

/-- C5 (amended): in mode combined with a valid static port list, a
config.default.type value of the wrong primitive type is replaced by the
default without error; the device-level result signals failure due to the
default-port section only when the value is a string failing validation, and
in that case the already-built static ports are retained (count 1 and the
parsed mandatory fields of port 0 intact). -/
theorem default_type_string_failure_retains_static_ports :
    (parse_port_config combinedDeviceDefaultTypeNumber zeroPorts eCombined).1 =
      NO_ERROR ∧
    (parse_port_config combinedDeviceDefaultTypeBogus zeroPorts eCombined).1 =
      ERROR_CONFIG_FILE_PARAMETER ∧
    ((parse_port_config combinedDeviceDefaultTypeBogus zeroPorts
        eCombined).2).mvbc_port_count = 1 ∧
    (((parse_port_config combinedDeviceDefaultTypeBogus zeroPorts
        eCombined).2).port 0).portCfg.iPortAddr = 12 ∧
    (((parse_port_config combinedDeviceDefaultTypeBogus zeroPorts
        eCombined).2).port 0).portCfg.iFunctionCode = 3 := by
  exact ⟨rfl, rfl, rfl, rfl, rfl⟩

/-- C8 counterexample: a present but empty project.devices array is a
success path yielding a project with zero devices, contradicting "there is
no success path that yields a project whose device count is zero". -/
theorem empty_devices_array_succeeds_with_zero_devices :
    (mvbc_parse_project_configuration 8 docEmptyDevices).1 = NO_ERROR ∧
    ((mvbc_parse_project_configuration 8 docEmptyDevices).2).mvbc_device_count
      = 0 := by
  exact ⟨rfl, rfl⟩

/-- C8 (amended): the project.devices key must be an array and its absence
fails with ConfigParameterError (ERROR_CONFIG_FILE_PARAMETER, the source's
name for that taxon), but an empty devices array is accepted: the load
succeeds with a device count of zero.  Stated for every device capacity. -/
theorem devices_key_mandatory_but_empty_array_succeeds (m : Nat) :
    (mvbc_parse_project_configuration m docNoDevices).1 =
      ERROR_CONFIG_FILE_PARAMETER ∧
    (mvbc_parse_project_configuration m docEmptyDevices).1 = NO_ERROR ∧
    ((mvbc_parse_project_configuration m docEmptyDevices).2).mvbc_device_count
      = 0 := by
  have h0 : ¬ ((0 : Nat) > m) := Nat.not_lt_zero m
  refine ⟨rfl, ?_, ?_⟩ <;>
    simp [mvbc_parse_project_configuration, docEmptyDevices, mkRootDevices,
      dotgetString, dotgetArray, dotget, objGet, lookupField,
      json_array_get_count, device_loop, h0, NO_ERROR]

/-- C9 counterexample: in mode static, a device without the config.static
array does not fail — parson's json_array_get_count returns 0 for the
missing list, so the port parse succeeds with an empty port list. -/
theorem missing_static_list_accepted :
    (parse_port_config emptyObject zeroPorts eStatic).1 = NO_ERROR ∧
    ((parse_port_config emptyObject zeroPorts eStatic).2).mvbc_port_count
      = 0 := by
  exact ⟨rfl, rfl⟩

/-- C9 (amended): for modes static and combined the absence of the
config.static array is not detected: the device's port configuration
succeeds with a port count of zero (in combined mode the default-port
template is filled with its defaults). -/
theorem missing_static_list_yields_empty_port_list :
    (parse_port_config emptyObject zeroPorts eStatic).1 = NO_ERROR ∧
    ((parse_port_config emptyObject zeroPorts eStatic).2).mvbc_port_count
      = 0 ∧
    (parse_port_config emptyObject zeroPorts eCombined).1 = NO_ERROR ∧
    ((parse_port_config emptyObject zeroPorts eCombined).2).mvbc_port_count
      = 0 ∧
    ((parse_port_config emptyObject zeroPorts
        eCombined).2).defaultPortCfg.wPortType =
      MVBC_JSON_CONF_DEFAULT_PORT_TYPE := by
  exact ⟨rfl, rfl, rfl, rfl, rfl⟩

/-- The static-port loop never changes the stored port count (it is set once,
before the loop, from the raw array length). -/
theorem static_loop_count : ∀ (l : List JVal) (i : Nat) (ps : sMvbcPorts),
    ((static_loop l i ps).2).mvbc_port_count = ps.mvbc_port_count
  | [], _, _ => rfl
  | v :: rest, i, ps => by
    unfold static_loop
    rcases h : parse_static_port (ps.port i) (json_array_get_object_of v) with ⟨rc, slot⟩
    simp only [h]
    split
    · rfl
    · exact static_loop_count rest (i + 1) _

/-- The static-port loop starting at index i leaves every earlier slot
untouched. -/
theorem static_loop_untouched : ∀ (l : List JVal) (i j : Nat) (ps : sMvbcPorts),
    j < i → ((static_loop l i ps).2).port j = ps.port j
  | [], _, _, _, _ => rfl
  | v :: rest, i, j, ps, hj => by
    unfold static_loop
    rcases h : parse_static_port (ps.port i) (json_array_get_object_of v) with ⟨rc, slot⟩
    simp only [h]
    have hne : j ≠ i := by omega
    split
    · simp [hne]
    · rw [static_loop_untouched rest (i + 1) j _ (by omega)]
      simp [hne]

/-- A list made of copies of `goodStaticPort` passes the static-port loop
with NO_ERROR, whatever its length. -/
theorem static_loop_replicate_good_rc : ∀ (k i : Nat) (ps : sMvbcPorts),
    (static_loop (List.replicate k goodStaticPort) i ps).1 = NO_ERROR
  | 0, _, _ => rfl
  | k + 1, i, _ps => static_loop_replicate_good_rc k (i + 1) _

/-- After running the static-port loop on k copies of `goodStaticPort`
starting at index i, every slot in [i, i+k) holds the parsed port (name
defaulted to "n/a", address 12, function code 3, every other field at its
default). -/
theorem static_loop_replicate_good_written : ∀ (k i j : Nat) (ps : sMvbcPorts),
    i ≤ j → j < i + k →
    ((static_loop (List.replicate k goodStaticPort) i ps).2).port j =
      ⟨"n/a", ⟨12, 0, 0, 3, 16, 0, 0⟩⟩
  | 0, _, _, _, h1, h2 => absurd h2 (by omega)
  | k + 1, i, j, ps, h1, h2 => by
    rcases Nat.eq_or_lt_of_le h1 with rfl | hlt
    · show ((static_loop (List.replicate k goodStaticPort) (i + 1) _).2).port i = _
      rw [static_loop_untouched _ _ _ _ (by omega)]
      simp
      exact ⟨rfl, rfl, rfl, rfl, rfl, rfl, rfl, rfl⟩
    · show ((static_loop (List.replicate k goodStaticPort) (i + 1) _).2).port j = _
      exact static_loop_replicate_good_written k (i + 1) j _ (by omega) (by omega)

/-- In mode static, parse_port_config is exactly the static-port loop run on
the raw config.static array, with the stored count taken from the raw array
length. -/
theorem parse_port_config_static (obj : JVal) (ps : sMvbcPorts) :
    parse_port_config obj ps eStatic =
      static_loop ((dotgetArray obj ["config", "static"]).getD []) 0
        { ps with mvbc_port_count :=
            (json_array_get_count (dotgetArray obj ["config", "static"]) : Int) } := by
  unfold parse_port_config
  rw [if_pos (Or.inl rfl : eStatic = eStatic ∨ eStatic = eCombined)]
  rcases h : static_loop ((dotgetArray obj ["config", "static"]).getD []) 0
      { ps with mvbc_port_count :=
          (json_array_get_count (dotgetArray obj ["config", "static"]) : Int) }
    with ⟨rc, ps2⟩
  simp only [h]
  rw [if_neg (by decide : ¬ (eStatic = eDynamic ∨ eStatic = eCombined))]

/-- C4 (refuted by the code): parse_port_config never checks the raw static
list length against MAX_PORT_COUNT.  A static port list with 4096 valid
entries — one more than the port array's capacity — is accepted with
NO_ERROR, the stored per-device port count becomes 4096 > MAX_PORT_COUNT
(breaking the documented invariant), and the loop writes port slot 4095, one
past the last legal index of `port[MAX_PORT_COUNT]`. -/
theorem port_capacity_overflow_accepted :
    (parse_port_config devStatic4096 zeroPorts eStatic).1 = NO_ERROR ∧
    ((parse_port_config devStatic4096 zeroPorts eStatic).2).mvbc_port_count = 4096 ∧
    MAX_PORT_COUNT < 4096 ∧
    (((parse_port_config devStatic4096 zeroPorts eStatic).2).port 4095).portCfg.iPortAddr
      = 12 := by
  have harr : dotgetArray devStatic4096 ["config", "static"] =
      some (List.replicate 4096 goodStaticPort) := rfl
  rw [parse_port_config_static, harr]
  simp only [Option.getD_some, json_array_get_count, List.length_replicate]
  refine ⟨static_loop_replicate_good_rc 4096 0 _, ?_, by decide, ?_⟩
  · rw [static_loop_count]
    norm_num
  · rw [static_loop_replicate_good_written 4096 0 4095 _ (by omega) (by omega)]

/-- A failed mandatory-number resolution always carries
ERROR_CONFIG_FILE_PARAMETER. -/
theorem resolveMandatoryNumber_error_eq (obj : JVal) (key : List String)
    (f : Int → Int) (e : Int)
    (h : resolveMandatoryNumber obj key f = Except.error e) :
    e = ERROR_CONFIG_FILE_PARAMETER := by
  unfold resolveMandatoryNumber at h
  simp only [] at h
  repeat' split at h
  all_goals simp_all

/-- A failed optional-number resolution always carries
ERROR_CONFIG_FILE_PARAMETER. -/
theorem resolveOptionalNumber_error_eq (obj : JVal) (key : List String)
    (f : Int → Int) (deflt : Int) (e : Int)
    (h : resolveOptionalNumber obj key f deflt = Except.error e) :
    e = ERROR_CONFIG_FILE_PARAMETER := by
  unfold resolveOptionalNumber at h
  simp only [] at h
  repeat' split at h
  all_goals simp_all

/-- A failed mandatory-string resolution always carries
ERROR_CONFIG_FILE_PARAMETER. -/
theorem resolveMandatoryStringEnum_error_eq (obj : JVal) (key : List String)
    (f : String → Int) (e : Int)
    (h : resolveMandatoryStringEnum obj key f = Except.error e) :
    e = ERROR_CONFIG_FILE_PARAMETER := by
  unfold resolveMandatoryStringEnum at h
  simp only [] at h
  repeat' split at h
  all_goals simp_all

/-- A failed optional-string resolution always carries
ERROR_CONFIG_FILE_PARAMETER. -/
theorem resolveOptionalStringEnum_error_eq (obj : JVal) (key : List String)
    (f : String → Int) (deflt : Int) (e : Int)
    (h : resolveOptionalStringEnum obj key f deflt = Except.error e) :
    e = ERROR_CONFIG_FILE_PARAMETER := by
  unfold resolveOptionalStringEnum at h
  simp only [] at h
  repeat' split at h
  all_goals simp_all

/-- A static-port iteration returns NO_ERROR or ERROR_CONFIG_FILE_PARAMETER,
never any other code. -/
theorem parse_static_port_rc (s : sMvbcPort) (p : JVal) :
    (parse_static_port s p).1 = NO_ERROR ∨
    (parse_static_port s p).1 = ERROR_CONFIG_FILE_PARAMETER := by
  unfold parse_static_port
  repeat' split
  all_goals
    first
      | exact Or.inl rfl
      | (rename_i heq
         exact Or.inr (resolveMandatoryNumber_error_eq _ _ _ _ heq))
      | (rename_i heq
         exact Or.inr (resolveOptionalNumber_error_eq _ _ _ _ _ heq))
      | (rename_i heq
         exact Or.inr (resolveOptionalStringEnum_error_eq _ _ _ _ _ heq))

/-- The static-port loop returns NO_ERROR or ERROR_CONFIG_FILE_PARAMETER. -/
theorem static_loop_rc : ∀ (l : List JVal) (i : Nat) (ps : sMvbcPorts),
    (static_loop l i ps).1 = NO_ERROR ∨
    (static_loop l i ps).1 = ERROR_CONFIG_FILE_PARAMETER
  | [], _, _ => Or.inl rfl
  | v :: rest, i, ps => by
    unfold static_loop
    have hrc := parse_static_port_rc (ps.port i) (json_array_get_object_of v)
    rcases h : parse_static_port (ps.port i) (json_array_get_object_of v) with ⟨rc, slot⟩
    rw [h] at hrc
    simp only [h]
    split
    · exact hrc
    · exact static_loop_rc rest (i + 1) _

/-- The default-port section returns NO_ERROR or ERROR_CONFIG_FILE_PARAMETER
when the rc it starts from is one of the two. -/
theorem parse_dynamic_section_rc (obj : JVal) (rc0 : Int) (ps : sMvbcPorts)
    (h : rc0 = NO_ERROR ∨ rc0 = ERROR_CONFIG_FILE_PARAMETER) :
    (parse_dynamic_section obj rc0 ps).1 = NO_ERROR ∨
    (parse_dynamic_section obj rc0 ps).1 = ERROR_CONFIG_FILE_PARAMETER := by
  unfold parse_dynamic_section
  rcases h1 : resolveOptionalStringEnum obj ["config", "default", "type"]
      validatePortType MVBC_JSON_CONF_DEFAULT_PORT_TYPE with e1 | v1
  all_goals try have k1 := resolveOptionalStringEnum_error_eq _ _ _ _ _ h1
  all_goals simp only [h1]
  all_goals
    rcases h2 : resolveOptionalNumber obj ["config", "default", "poll_ms"]
        validatePollingTimeout MVBC_JSON_CONF_DEFAULT_PORT_POLL_MS with e2 | v2
  all_goals try have k2 := resolveOptionalNumber_error_eq _ _ _ _ _ h2
  all_goals simp only [h2]
  all_goals
    rcases h3 : resolveOptionalNumber obj ["config", "default", "irq"]
        validateInterruptNumber MVBC_JSON_CONF_DEFAULT_PORT_IRQ with e3 | v3
  all_goals try have k3 := resolveOptionalNumber_error_eq _ _ _ _ _ h3
  all_goals simp only [h3]
  all_goals
    rcases h4 : resolveOptionalNumber obj ["config", "default", "num_data"]
        validateNumericalData MVBC_JSON_CONF_DEFAULT_PORT_NUM_DATA with e4 | v4
  all_goals try have k4 := resolveOptionalNumber_error_eq _ _ _ _ _ h4
  all_goals simp only [h4]
  all_goals
    first
      | exact h
      | (exact Or.inr k4)
      | (exact Or.inr k3)
      | (exact Or.inr k2)
      | (exact Or.inr k1)

/-- parse_port_config returns NO_ERROR or ERROR_CONFIG_FILE_PARAMETER. -/
theorem parse_port_config_rc (obj : JVal) (ps : sMvbcPorts) (mode : Int) :
    (parse_port_config obj ps mode).1 = NO_ERROR ∨
    (parse_port_config obj ps mode).1 = ERROR_CONFIG_FILE_PARAMETER := by
  unfold parse_port_config
  split
  rename_i x rcS psS heqPair
  have hrc : rcS = NO_ERROR ∨ rcS = ERROR_CONFIG_FILE_PARAMETER := by
    by_cases hc1 : (mode = eStatic ∨ mode = eCombined)
    · rw [if_pos hc1] at heqPair
      simp only [] at heqPair
      have hsl := static_loop_rc ((dotgetArray obj ["config", "static"]).getD []) 0
        { ps with mvbc_port_count :=
            (json_array_get_count (dotgetArray obj ["config", "static"]) : Int) }
      rw [heqPair] at hsl
      exact hsl
    · rw [if_neg hc1] at heqPair
      injection heqPair with ha hb
      exact Or.inl ha.symm
  split
  · exact parse_dynamic_section_rc _ _ _ hrc
  · exact hrc

/-- A device-loop iteration returns NO_ERROR or
ERROR_CONFIG_FILE_PARAMETER. -/
theorem parse_device_rc (dev : sMvbcDevCfg) (obj : JVal) :
    (parse_device dev obj).1 = NO_ERROR ∨
    (parse_device dev obj).1 = ERROR_CONFIG_FILE_PARAMETER := by
  unfold parse_device
  repeat' split
  all_goals
    first
      | exact Or.inl rfl
      | exact Or.inr rfl
      | (rename_i heq
         exact Or.inr (resolveMandatoryStringEnum_error_eq _ _ _ _ heq))
      | (rename_i heq
         exact Or.inr (resolveMandatoryNumber_error_eq _ _ _ _ heq))
      | (rename_i modeVal heqMode htr
         dsimp only
         rcases hpc : parse_port_config obj dev.portSetup modeVal with ⟨rcp2, ps2⟩
         have hh := parse_port_config_rc obj dev.portSetup modeVal
         rw [hpc] at hh
         simp only [hpc]
         exact hh)

/-- The device loop returns NO_ERROR or ERROR_CONFIG_FILE_PARAMETER when
started from one of the two. -/
theorem device_loop_rc : ∀ (l : List JVal) (i : Nat) (rc : Int) (proj : sProject),
    (rc = NO_ERROR ∨ rc = ERROR_CONFIG_FILE_PARAMETER) →
    ((device_loop l i rc proj).1 = NO_ERROR ∨
     (device_loop l i rc proj).1 = ERROR_CONFIG_FILE_PARAMETER)
  | [], _, _, _, h => h
  | v :: rest, i, rc, proj, h => by
    unfold device_loop
    have hpd := parse_device_rc (proj.mvbc i) (json_array_get_object_of v)
    rcases hd : parse_device (proj.mvbc i) (json_array_get_object_of v)
      with ⟨rcd, dev, broke⟩
    rw [hd] at hpd
    simp only [hd]
    split
    · exact hpd
    · exact device_loop_rc rest (i + 1) rcd _ hpd

/-- The device loop never changes the stored device count (it is written
once, before the loop, from the raw devices array length). -/
theorem device_loop_count : ∀ (l : List JVal) (i : Nat) (rc : Int) (proj : sProject),
    ((device_loop l i rc proj).2).mvbc_device_count = proj.mvbc_device_count
  | [], _, _, _ => rfl
  | v :: rest, i, rc, proj => by
    unfold device_loop
    rcases hd : parse_device (proj.mvbc i) (json_array_get_object_of v)
      with ⟨rcd, dev, broke⟩
    simp only [hd]
    split
    · rfl
    · exact device_loop_count rest (i + 1) rcd _

/-- C6: a devices array with at most MAX_MVBC_DEVICES entries passes the
capacity check (the result is never ConfigInvalidParameterError and the full
count is stored), while an array with MAX_MVBC_DEVICES + 1 entries fails
with ERROR_CONFIG_INVALID_PARAMETER before any device is processed: the
device count stays 0 and every device slot keeps its zero-initialised
contents.  Stated for every capacity, as the numeric MAX_MVBC_DEVICES lives
in a header outside the provided sources. -/
theorem device_capacity_boundary (m : Nat) (devs : List JVal) :
    (devs.length ≤ m →
      (mvbc_parse_project_configuration m (mkRootDevices devs)).1 ≠
        ERROR_CONFIG_INVALID_PARAMETER ∧
      ((mvbc_parse_project_configuration m (mkRootDevices devs)).2).mvbc_device_count =
        (devs.length : Int)) ∧
    (devs.length = m + 1 →
      (mvbc_parse_project_configuration m (mkRootDevices devs)).1 =
        ERROR_CONFIG_INVALID_PARAMETER ∧
      ((mvbc_parse_project_configuration m (mkRootDevices devs)).2).mvbc_device_count
        = 0 ∧
      ∀ j, ((mvbc_parse_project_configuration m (mkRootDevices devs)).2).mvbc j =
        zeroDevCfg) := by
  have hred : mvbc_parse_project_configuration m (mkRootDevices devs) =
      (if devs.length > m then
        (ERROR_CONFIG_INVALID_PARAMETER,
          (⟨"n/a", "n/a", 0, fun _ => zeroDevCfg⟩ : sProject))
      else
        device_loop devs 0 NO_ERROR
          ⟨"n/a", "n/a", (devs.length : Int), fun _ => zeroDevCfg⟩) := rfl
  constructor
  · intro hle
    have hgt : ¬ (devs.length > m) := by omega
    rw [hred, if_neg hgt]
    constructor
    · have hrc := device_loop_rc devs 0 NO_ERROR
        ⟨"n/a", "n/a", (devs.length : Int), fun _ => zeroDevCfg⟩ (Or.inl rfl)
      rcases hrc with h | h <;> rw [h] <;> decide
    · rw [device_loop_count]
  · intro hone
    have hgt : devs.length > m := by omega
    rw [hred, if_pos hgt]
    exact ⟨rfl, rfl, fun j => rfl⟩

/-- Witness for device_capacity_boundary: with capacity 1 and two (empty)
device records, the load fails fast with ConfigInvalidParameterError, zero
devices stored and device slot 0 untouched. -/
theorem device_capacity_boundary_witness :
    (mvbc_parse_project_configuration 1 (mkRootDevices [emptyObject, emptyObject])).1 =
      ERROR_CONFIG_INVALID_PARAMETER ∧
    ((mvbc_parse_project_configuration 1
        (mkRootDevices [emptyObject, emptyObject])).2).mvbc_device_count = 0 ∧
    ((mvbc_parse_project_configuration 1
        (mkRootDevices [emptyObject, emptyObject])).2).mvbc 0 = zeroDevCfg := by
  obtain ⟨h1, h2, h3⟩ := (device_capacity_boundary 1 [emptyObject, emptyObject]).2 rfl
  exact ⟨h1, h2, h3 0⟩

/-- C10: whenever the devices array parses with a count within
MAX_MVBC_DEVICES, the full count is stored into mvbc_device_count before any
device is validated and never reduced afterwards — shown for an arbitrary
devices array (the load may abort at any device), together with a concrete
aborted load (first device lacks its mandatory path, the loop breaks at
index 0) whose returned project still reports a device count of 2, slot 1
keeping its zero-initialised contents. -/
theorem device_count_stored_upfront (m : Nat) (devs : List JVal)
    (h : devs.length ≤ m) :
    ((mvbc_parse_project_configuration m (mkRootDevices devs)).2).mvbc_device_count =
      (devs.length : Int) ∧
    (mvbc_parse_project_configuration 4 docFirstDeviceBreaks).1 =
      ERROR_CONFIG_FILE_PARAMETER ∧
    ((mvbc_parse_project_configuration 4 docFirstDeviceBreaks).2).mvbc_device_count
      = 2 ∧
    ((mvbc_parse_project_configuration 4 docFirstDeviceBreaks).2).mvbc 1 =
      zeroDevCfg := by
  refine ⟨?_, rfl, rfl, rfl⟩
  have hred : mvbc_parse_project_configuration m (mkRootDevices devs) =
      (if devs.length > m then
        (ERROR_CONFIG_INVALID_PARAMETER,
          (⟨"n/a", "n/a", 0, fun _ => zeroDevCfg⟩ : sProject))
      else
        device_loop devs 0 NO_ERROR
          ⟨"n/a", "n/a", (devs.length : Int), fun _ => zeroDevCfg⟩) := rfl
  rw [hred, if_neg (by omega : ¬ (devs.length > m))]
  rw [device_loop_count]

/-- Witness for device_count_stored_upfront at capacity 1 with one device. -/
theorem device_count_stored_upfront_witness :
    ((mvbc_parse_project_configuration 1 (mkRootDevices [emptyObject])).2).mvbc_device_count
      = 1 ∧
    (mvbc_parse_project_configuration 4 docFirstDeviceBreaks).1 =
      ERROR_CONFIG_FILE_PARAMETER :=
  ⟨(device_count_stored_upfront 1 [emptyObject] (by decide)).1,
   (device_count_stored_upfront 1 [emptyObject] (by decide)).2.1⟩

end Mvbc
